import Mathlib

/-!
Verification of the tcms_github_app integration layer.

The definitions below are a shallow embedding of the Python source
(tcms_github_app/issues.py, tcms_github_app/models.py).  External
collaborators (the Django cache, the GitHub token issuer, the PyGithub
client, the user social-auth lookup) are modelled as explicit state or
function parameters; their observable effects (cache reads and writes,
number of issuer invocations) are returned explicitly so the theorems can
speak about them.
-/

namespace TcmsGithubApp

/-! ## Token cache (Integration._find_token) -/

/-- Result object of gh_app.get_access_token: an installation access token.
The Python code reads its .token attribute. -/
structure AccessToken where
  token : String
deriving DecidableEq, Repr

/-- A failure of the external token-issuing call (network error, invalid
credentials, revoked app). -/
inductive IssueError where
  | failure : String → IssueError
deriving DecidableEq, Repr

/-- State of the shared Django cache: entries are (key, value, absolute
expiry time).  cache.set with a TTL stores expiry = now + ttl. -/
structure CacheState where
  entries : List (String × String × Nat)
deriving DecidableEq, Repr

/-- Django cache.get: returns the stored value when an entry for the key
exists and is unexpired at the current time, otherwise None. -/
def cacheGet (c : CacheState) (now : Nat) (key : String) : Option String :=
  match c.entries.find? (fun e => e.1 == key) with
  | some e => if now < e.2.2 then some e.2.1 else none
  | none => none

/-- Django cache.set key value ttl: replaces any entry for the key with one
that expires ttl seconds from now. -/
def cacheSet (c : CacheState) (now : Nat) (key value : String) (ttl : Nat) :
    CacheState :=
  ⟨(key, value, now + ttl) :: c.entries.filter (fun e => e.1 != key)⟩

/-- Python truthiness test `if not token` on the result of cache.get:
true for None and for the empty string. -/
def tokenIsFalsy : Option String → Bool
  | none => true
  | some s => s == ""

/-- The TTL passed to cache.set in Integration._find_token: 3000 seconds
(50 minutes). -/
def cacheTTL : Nat := 3000

/-- Real-world lifetime of a GitHub App installation access token, per the
source comment "token expires after 1 hr so cache it for 50 mins":
3600 seconds. -/
def tokenRealLifetime : Nat := 3600

deriving instance DecidableEq for Except

/-- Everything Integration._find_token does that is observable: the value
returned (or the propagated issuer error), the cache state afterwards, and
how many times gh_app.get_access_token was invoked. -/
structure FindTokenResult where
  result : Except IssueError String
  cache : CacheState
  issuerCalls : Nat
deriving DecidableEq, Repr

/-- The cache key "token-for-%d" used by Integration._find_token. -/
def token_cache_key (installation : Nat) : String :=
  "token-for-" ++ toString installation

/-- Shallow embedding of Integration._find_token.  gh_app stands for the
external issuer gh_app.get_access_token; the cache state and current time
are passed explicitly. -/
def find_token (gh_app : Nat → Except IssueError AccessToken)
    (c : CacheState) (now : Nat) (installation : Nat) : FindTokenResult :=
  let cache_key := token_cache_key installation
  let token := cacheGet c now cache_key
  if tokenIsFalsy token then
    match gh_app installation with
    | Except.error e => ⟨Except.error e, c, 1⟩
    | Except.ok t =>
        ⟨Except.ok t.token, cacheSet c now cache_key t.token cacheTTL, 1⟩
  else
    ⟨Except.ok (token.getD ""), c, 0⟩

end TcmsGithubApp

namespace TcmsGithubApp

/-- A concrete cache whose entry for installation 5 is fresh (expiry 100)
but holds the empty string. -/
def emptyTokenCache : CacheState := ⟨[("token-for-5", "", 100)]⟩

/-- A concrete issuer that always succeeds with token "fresh-token". -/
def freshIssuer : Nat → Except IssueError AccessToken :=
  fun _ => Except.ok ⟨"fresh-token"⟩

/-- C1 counterexample: the cache holds a fresh (unexpired) entry for
installation 5 — the empty string — yet find_token invokes the external
issuer (one call, not zero) and returns the issued token rather than the
cached value.  So the claim as stated, quantified over all fresh cache
entries, is false. -/
theorem find_token_empty_cached_counterexample :
    cacheGet emptyTokenCache 0 (token_cache_key 5) = some "" ∧
    (find_token freshIssuer emptyTokenCache 0 5).issuerCalls = 1 ∧
    (find_token freshIssuer emptyTokenCache 0 5).result ≠ Except.ok "" := by
  refine ⟨rfl, rfl, ?_⟩
  decide

/-- C1 (amended): for every installation whose cache entry is fresh
(unexpired) and non-empty, find_token returns exactly the cached value,
performs no issuer call, and leaves the cache unchanged. -/
theorem find_token_cache_hit
    (gh_app : Nat → Except IssueError AccessToken)
    (c : CacheState) (now installation : Nat) (v : String)
    (hget : cacheGet c now (token_cache_key installation) = some v)
    (hne : v ≠ "") :
    find_token gh_app c now installation =
      ⟨Except.ok v, c, 0⟩ := by
  simp only [find_token, hget]
  have hfalsy : tokenIsFalsy (some v) = false := by
    simp [tokenIsFalsy, hne]
  rw [hfalsy]
  simp

/-- Witness for find_token_cache_hit at a concrete fresh non-empty entry. -/
theorem find_token_cache_hit_witness :
    find_token freshIssuer ⟨[("token-for-7", "cached-tok", 50)]⟩ 10 7 =
      ⟨Except.ok "cached-tok", ⟨[("token-for-7", "cached-tok", 50)]⟩, 0⟩ :=
  find_token_cache_hit freshIssuer ⟨[("token-for-7", "cached-tok", 50)]⟩ 10 7
    "cached-tok" (by decide) (by decide)

/-- C2: for every installation whose cache entry is absent or expired
(cache.get returns None) and whose issuer call succeeds, find_token invokes
the issuer exactly once, returns the issued token, and writes it to the
cache with TTL 3000 seconds — strictly less than the 3600-second real token
lifetime — so the new entry is served for every lookup before now + 3000. -/
theorem find_token_cache_miss
    (gh_app : Nat → Except IssueError AccessToken)
    (c : CacheState) (now installation : Nat) (t : AccessToken)
    (hmiss : cacheGet c now (token_cache_key installation) = none)
    (hissue : gh_app installation = Except.ok t) :
    find_token gh_app c now installation =
      ⟨Except.ok t.token,
       cacheSet c now (token_cache_key installation) t.token cacheTTL, 1⟩ ∧
    cacheTTL = 3000 ∧ cacheTTL < tokenRealLifetime ∧
    (∀ u, u < now + cacheTTL →
      cacheGet (find_token gh_app c now installation).cache u
        (token_cache_key installation) = some t.token) := by
  have hfind : find_token gh_app c now installation =
      ⟨Except.ok t.token,
       cacheSet c now (token_cache_key installation) t.token cacheTTL, 1⟩ := by
    simp only [find_token, hmiss]
    rw [show tokenIsFalsy none = true from rfl]
    simp [hissue]
  refine ⟨hfind, rfl, by decide, ?_⟩
  intro u hu
  rw [hfind]
  simp only [cacheSet, cacheGet, List.find?]
  simp [hu]

/-- Witness for find_token_cache_miss on an empty cache. -/
theorem find_token_cache_miss_witness :
    find_token freshIssuer ⟨[]⟩ 0 5 =
      ⟨Except.ok "fresh-token",
       cacheSet ⟨[]⟩ 0 (token_cache_key 5) "fresh-token" cacheTTL, 1⟩ ∧
    cacheTTL = 3000 ∧ cacheTTL < tokenRealLifetime ∧
    (∀ u, u < 0 + cacheTTL →
      cacheGet (find_token freshIssuer ⟨[]⟩ 0 5).cache u
        (token_cache_key 5) = some "fresh-token") :=
  find_token_cache_miss freshIssuer ⟨[]⟩ 0 5 ⟨"fresh-token"⟩ (by decide) rfl

/-- C6: when the cache misses and the external issuer call fails, the
failure propagates to the caller as-is, the issuer was tried exactly once
(no retry), and the cache is left unchanged — no write on the error path. -/
theorem find_token_issuer_failure
    (gh_app : Nat → Except IssueError AccessToken)
    (c : CacheState) (now installation : Nat) (e : IssueError)
    (hmiss : tokenIsFalsy (cacheGet c now (token_cache_key installation)) = true)
    (hissue : gh_app installation = Except.error e) :
    find_token gh_app c now installation = ⟨Except.error e, c, 1⟩ := by
  simp only [find_token, hmiss]
  simp [hissue]

/-- Witness for find_token_issuer_failure on an empty cache and an issuer
that always fails. -/
theorem find_token_issuer_failure_witness :
    find_token (fun _ => Except.error (IssueError.failure "network down"))
      ⟨[]⟩ 0 5 =
      ⟨Except.error (IssueError.failure "network down"), ⟨[]⟩, 1⟩ :=
  find_token_issuer_failure
    (fun _ => Except.error (IssueError.failure "network down"))
    ⟨[]⟩ 0 5 (IssueError.failure "network down") (by decide) rfl

/-- C10: a fresh cache entry holding the falsy empty string is treated as a
miss — find_token invokes the issuer (once) and overwrites the entry with
the issued token. -/
theorem find_token_falsy_cached_miss
    (gh_app : Nat → Except IssueError AccessToken)
    (c : CacheState) (now installation : Nat) (t : AccessToken)
    (hget : cacheGet c now (token_cache_key installation) = some "")
    (hissue : gh_app installation = Except.ok t) :
    find_token gh_app c now installation =
      ⟨Except.ok t.token,
       cacheSet c now (token_cache_key installation) t.token cacheTTL, 1⟩ := by
  simp only [find_token, hget]
  rw [show tokenIsFalsy (some "") = true from rfl]
  simp [hissue]

/-- Witness for find_token_falsy_cached_miss at the concrete cache holding
a fresh empty-string entry. -/
theorem find_token_falsy_cached_miss_witness :
    find_token freshIssuer emptyTokenCache 0 5 =
      ⟨Except.ok "fresh-token",
       cacheSet emptyTokenCache 0 (token_cache_key 5) "fresh-token"
         cacheTTL, 1⟩ :=
  find_token_falsy_cached_miss freshIssuer emptyTokenCache 0 5
    ⟨"fresh-token"⟩ (by decide) rfl

/-! ## Installation selection (Integration._rpc_connection) -/

/-- An AppInstallation record as used by Integration._rpc_connection:
tenant_pk links it to a tenant, installation is the opaque external
identifier, sender is the uid of the external user who installed the app. -/
structure AppInstallation where
  tenant_pk : Nat
  installation : Nat
  sender : Nat
deriving DecidableEq, Repr

/-- The single exception raised by Integration._rpc_connection:
"Cannot find GitHub App installation". -/
inductive ResolveError where
  | cannotFindInstallation : ResolveError
deriving DecidableEq, Repr

/-- AppInstallation.objects.filter(tenant_pk=...): all installation records
of the given tenant, in database order. -/
def tenant_installations (db : List AppInstallation) (tenant_pk : Nat) :
    List AppInstallation :=
  db.filter (fun i => i.tenant_pk == tenant_pk)

/-- The candidate list after the narrowing step of
Integration._rpc_connection: when more than one installation exists on the
tenant, and the current user has a linked social-auth identity, keep only
the installations whose sender equals that uid; otherwise the tenant list
is kept as-is. -/
def narrowed_installations (db : List AppInstallation) (tenant_pk : Nat)
    (social_uid : Option Nat) : List AppInstallation :=
  let cands := tenant_installations db tenant_pk
  if cands.length > 1 then
    match social_uid with
    | some uid => cands.filter (fun i => i.sender == uid)
    | none => cands
  else
    cands

/-- The installation-selection portion of Integration._rpc_connection:
filter by tenant, narrow by the current user's social-auth uid when more
than one candidate exists, then demand exactly one candidate — returning it
— and raise otherwise.  The current user's first social auth is passed as
social_uid (None when the user has no linked identity). -/
def select_installation (db : List AppInstallation) (tenant_pk : Nat)
    (social_uid : Option Nat) : Except ResolveError AppInstallation :=
  let installations := narrowed_installations db tenant_pk social_uid
  if installations.length ≠ 1 then
    Except.error ResolveError.cannotFindInstallation
  else
    match installations.head? with
    | some i => Except.ok i
    | none => Except.error ResolveError.cannotFindInstallation

/-- C3: when a tenant has exactly one installation record, selection
returns it for every current user — with or without a linked identity, and
whether or not the sender matches — because the sender filter is only
applied when more than one candidate exists. -/
theorem select_installation_single
    (db : List AppInstallation) (tenant_pk : Nat) (i : AppInstallation)
    (hone : tenant_installations db tenant_pk = [i]) :
    ∀ social_uid : Option Nat,
      select_installation db tenant_pk social_uid = Except.ok i := by
  intro social_uid
  simp [select_installation, narrowed_installations, hone]

/-- Witness for select_installation_single: one installation on tenant 1,
current user linked to a different sender uid 999. -/
theorem select_installation_single_witness :
    select_installation [⟨1, 11, 42⟩] 1 (some 999) = Except.ok ⟨1, 11, 42⟩ :=
  select_installation_single [⟨1, 11, 42⟩] 1 ⟨1, 11, 42⟩ (by decide)
    (some 999)

/-- C4: when a tenant has two or more installation records, the current
user has a linked identity, and exactly one record's sender equals that
uid, selection returns that record. -/
theorem select_installation_sender_match
    (db : List AppInstallation) (tenant_pk uid : Nat) (i : AppInstallation)
    (hmany : (tenant_installations db tenant_pk).length > 1)
    (hmatch : (tenant_installations db tenant_pk).filter
        (fun j => j.sender == uid) = [i]) :
    select_installation db tenant_pk (some uid) = Except.ok i := by
  simp [select_installation, narrowed_installations, hmany, hmatch]

/-- Witness for select_installation_sender_match: two installations on
tenant 1, only the second one's sender matches uid 7. -/
theorem select_installation_sender_match_witness :
    select_installation [⟨1, 11, 5⟩, ⟨1, 12, 7⟩] 1 (some 7) =
      Except.ok ⟨1, 12, 7⟩ :=
  select_installation_sender_match [⟨1, 11, 5⟩, ⟨1, 12, 7⟩] 1 7 ⟨1, 12, 7⟩
    (by decide) (by decide)

/-- C5: selection fails exactly when the candidate count after narrowing
is not one, and the failure is the raised cannotFindInstallation error —
in particular a tenant with no installations always fails. -/
theorem select_installation_error_iff
    (db : List AppInstallation) (tenant_pk : Nat)
    (social_uid : Option Nat) :
    (select_installation db tenant_pk social_uid =
        Except.error ResolveError.cannotFindInstallation ↔
      (narrowed_installations db tenant_pk social_uid).length ≠ 1) ∧
    (tenant_installations db tenant_pk = [] →
      select_installation db tenant_pk social_uid =
        Except.error ResolveError.cannotFindInstallation) := by
  constructor
  · constructor
    · intro herr
      intro hlen
      rcases List.length_eq_one.mp hlen with ⟨a, ha⟩
      rw [select_installation, ha] at herr
      simp at herr
    · intro hlen
      simp [select_installation, hlen]
  · intro hempty
    have hnempty : narrowed_installations db tenant_pk social_uid = [] := by
      simp [narrowed_installations, hempty]
    simp [select_installation, hnempty]

/-- Witness for select_installation_error_iff on a tenant with zero
installations. -/
theorem select_installation_error_iff_witness :
    select_installation [] 1 none =
      Except.error ResolveError.cannotFindInstallation :=
  (select_installation_error_iff [] 1 none).2 (by decide)

/-! ## Credential swap (GithubKiwiTCMSBot.get_repo) -/

/-- A PyGithub Requester: the transport carrying one set of credentials. -/
structure Requester where
  login_or_token : String
deriving DecidableEq, Repr

/-- A repository object as returned by Github.get_repo: its data plus the
requester through which all subsequent API calls on it are made. -/
structure Repository where
  full_name : String
  is_private : Bool
  requester : Requester
deriving DecidableEq, Repr

/-- The GithubKiwiTCMSBot client state after __init__: its own requester
(built from the App-installation token it was constructed with) and the
optional bot requester, set only when a kiwitcms-bot social user exists. -/
structure BotClient where
  requester : Requester
  bot_requester : Option Requester
deriving DecidableEq, Repr

/-- GithubKiwiTCMSBot.__init__ with an installation token: the client keeps
the token as its own credentials, and builds bot_requester from the
kiwitcms-bot social user's access_token when that user exists. -/
def botClientInit (token : String) (bot_access_token : Option String) :
    BotClient :=
  ⟨⟨token⟩, bot_access_token.map (fun t => ⟨t⟩)⟩

/-- PyGithub's Github.get_repo as seen by the subclass: resolves the
repository data for the name (privacy supplied by the external service as
a function) and attaches the client's own requester to the object. -/
def super_get_repo (bot : BotClient) (privacy : String → Bool)
    (full_name : String) : Repository :=
  ⟨full_name, privacy full_name, bot.requester⟩

/-- Shallow embedding of GithubKiwiTCMSBot.get_repo: fetch the repository
via the parent class, then, only when the repository is public and a bot
requester is configured, swap the repository object's requester for the
bot requester. -/
def get_repo (bot : BotClient) (privacy : String → Bool)
    (full_name : String) : Repository :=
  let repo := super_get_repo bot privacy full_name
  if !repo.is_private then
    match bot.bot_requester with
    | some botReq => { repo with requester := botReq }
    | none => repo
  else
    repo

/-- C7: a private repository keeps the App-installation requester it was
resolved with, so all subsequent requests on it use the installation
token; a public repository, when a bot credential is configured, has its
requester swapped to the bot credential after resolution. -/
theorem get_repo_credential_swap (bot : BotClient)
    (privacy : String → Bool) (full_name : String) :
    (privacy full_name = true →
      (get_repo bot privacy full_name).requester = bot.requester) ∧
    (∀ r : Requester, privacy full_name = false →
      bot.bot_requester = some r →
      (get_repo bot privacy full_name).requester = r) := by
  constructor
  · intro hpriv
    simp [get_repo, super_get_repo, hpriv]
  · intro r hpub hbot
    simp [get_repo, super_get_repo, hpub, hbot]

/-- Witness for get_repo_credential_swap: a client with both credentials,
a private repository served with the installation requester and a public
one served with the bot requester. -/
theorem get_repo_credential_swap_witness :
    (get_repo (botClientInit "app-tok" (some "bot-tok"))
        (fun n => n == "org/private-repo") "org/private-repo").requester =
      Requester.mk "app-tok" ∧
    (get_repo (botClientInit "app-tok" (some "bot-tok"))
        (fun n => n == "org/private-repo") "org/public-repo").requester =
      Requester.mk "bot-tok" :=
  ⟨(get_repo_credential_swap (botClientInit "app-tok" (some "bot-tok"))
      (fun n => n == "org/private-repo") "org/private-repo").1 (by decide),
   (get_repo_credential_swap (botClientInit "app-tok" (some "bot-tok"))
      (fun n => n == "org/private-repo") "org/public-repo").2
     (Requester.mk "bot-tok") (by decide) rfl⟩

/-! ## Webhook endpoint

The webhook view itself (views.py) is not part of the sources here; only
its tests (tests/test_views.py) and the persisted model (models.py) are.
The view is therefore modelled from the specification and checked against
the expectations encoded in the tests. -/

/-- The WebhookPayload model (models.py): action, sender, arrival time and
the raw payload.  received_on is auto_now_add, passed in as the current
time. -/
structure WebhookPayload where
  action : String
  sender : String
  received_on : Nat
  payload : String
deriving DecidableEq, Repr

/-- An inbound webhook POST: the optional HTTP_X_HUB_SIGNATURE header, the
HTTP_X_GITHUB_EVENT header, the raw JSON body, and the action and sender
fields parsed from it. -/
structure WebhookRequest where
  signature : Option String
  event : String
  body : String
  action : String
  sender : String
deriving DecidableEq, Repr

/-- An HTTP response: status code and body. -/
structure WebhookResponse where
  status : Nat
  body : String
deriving DecidableEq, Repr

/-- Boolean substring test on character lists: the needle occurs
contiguously somewhere in the haystack. -/
def listContains (needle : List Char) : List Char → Bool
  | [] => needle.isEmpty
  | c :: cs => needle.isPrefixOf (c :: cs) || listContains needle cs

/-- Boolean substring test used to state that a response body contains
"pong". -/
def containsPong (s : String) : Bool :=
  listContains "pong".data s.data

/-- Modelled from the spec: the inbound webhook view (views.py is absent
from the sources; only its tests are present).  Per the spec, the endpoint
"accepts a signed JSON payload; header carries an HMAC signature over the
raw body using a shared secret; missing or invalid signature → reject with
a forbidden response" and the payload is not persisted; "a ping event →
respond with a simple acknowledgement containing pong" with status 200;
"all other events are persisted as WebhookPayload records".  The
signature-verification primitive is the supplied capability
verify_signature(secret, raw_body, signature) -> bool, passed as a
parameter. -/
def webhook_view (verify_signature : String → String → String → Bool)
    (secret : String) (now : Nat) (req : WebhookRequest)
    (db : List WebhookPayload) : WebhookResponse × List WebhookPayload :=
  match req.signature with
  | none => (⟨403, "Forbidden"⟩, db)
  | some sig =>
    if verify_signature secret req.body sig then
      if req.event == "ping" then
        (⟨200, "pong"⟩, db)
      else
        (⟨200, "ok"⟩, db ++ [⟨req.action, req.sender, now, req.body⟩])
    else
      (⟨403, "Forbidden"⟩, db)

/-- C8: a POST whose signature header is missing, or whose signature does
not verify against the shared secret, is answered with HTTP 403 Forbidden
and leaves the stored WebhookPayload records unchanged. -/
theorem webhook_forbidden_no_persist
    (verify_signature : String → String → String → Bool)
    (secret : String) (now : Nat) (req : WebhookRequest)
    (db : List WebhookPayload)
    (hbad : req.signature = none ∨
      ∃ sig, req.signature = some sig ∧
        verify_signature secret req.body sig = false) :
    (webhook_view verify_signature secret now req db).1.status = 403 ∧
    (webhook_view verify_signature secret now req db).2 = db := by
  rcases hbad with hnone | ⟨sig, hsig, hfail⟩
  · simp [webhook_view, hnone]
  · simp [webhook_view, hsig, hfail]

/-- Witness for webhook_forbidden_no_persist: a ping POST without a
signature header. -/
theorem webhook_forbidden_no_persist_witness :
    (webhook_view (fun _ _ sig => sig == "valid") "secret" 0
        ⟨none, "ping", "\x7b\x7d", "", "atodorov"⟩ []).1.status = 403 ∧
    (webhook_view (fun _ _ sig => sig == "valid") "secret" 0
        ⟨none, "ping", "\x7b\x7d", "", "atodorov"⟩ []).2 = [] :=
  webhook_forbidden_no_persist (fun _ _ sig => sig == "valid") "secret" 0
    ⟨none, "ping", "\x7b\x7d", "", "atodorov"⟩ [] (Or.inl rfl)

/-- C9: a POST carrying a signature that verifies against the shared
secret and the ping event is answered with status 200 and a body
containing "pong". -/
theorem webhook_ping_pong
    (verify_signature : String → String → String → Bool)
    (secret : String) (now : Nat) (req : WebhookRequest)
    (db : List WebhookPayload) (sig : String)
    (hsig : req.signature = some sig)
    (hok : verify_signature secret req.body sig = true)
    (hping : req.event = "ping") :
    (webhook_view verify_signature secret now req db).1.status = 200 ∧
    containsPong (webhook_view verify_signature secret now req db).1.body =
      true := by
  constructor
  · simp [webhook_view, hsig, hok, hping]
  · have hpong : containsPong "pong" = true := by decide
    simpa [webhook_view, hsig, hok, hping] using hpong

/-- Witness for webhook_ping_pong: a signed ping POST. -/
theorem webhook_ping_pong_witness :
    (webhook_view (fun _ _ sig => sig == "valid") "secret" 0
        ⟨some "valid", "ping", "\x7b\x7d", "", "atodorov"⟩ []).1.status =
      200 ∧
    containsPong (webhook_view (fun _ _ sig => sig == "valid") "secret" 0
        ⟨some "valid", "ping", "\x7b\x7d", "", "atodorov"⟩ []).1.body =
      true :=
  webhook_ping_pong (fun _ _ sig => sig == "valid") "secret" 0
    ⟨some "valid", "ping", "\x7b\x7d", "", "atodorov"⟩ [] "valid" rfl
    (by decide) rfl

end TcmsGithubApp
